import Mathlib

/-!
Verification of the `contacts` Go package (a Google Domain Shared Contacts
client): a shallow embedding of its wire codec (`encoding.go`) and of its
service layer (`ContactKind`, `Clone`, `getContact`, `UpdateContact`,
`DeleteContact`, `ListContacts`, query options), with theorems settling the
claims about round-tripping, pagination, optimistic concurrency, conditional
GET, extended-property decoding, omit-if-empty encoding and the free-text
query builder.

Modelling conventions:
* Go strings are Lean `String`s; `strings.TrimSpace` is modelled over the
  character list with the ASCII white-space set (the Unicode extras of Go's
  `unicode.IsSpace` never arise in the claims).
* `time.Time` values travel through the codec as their raw RFC3339 text, so
  they are modelled as opaque `String`s (the zero time is `""`).
* XML is modelled as a tree of elements with resolved names
  (`space`/`localName`), attribute lists and accumulated character data,
  which is exactly the view Go's `encoding/xml` token matching works on.
  Namespaced struct tags match `space` and `localName`; tags without a
  namespace match any `space`, as in `encoding/xml`.
* A Go `map[string]string` is an association list with unique keys built by
  insert-or-replace (`GoMap.insert`), mirroring map assignment; map
  iteration order is the list order (Go's order is unspecified, and no
  claim depends on it).
* HTTP is a pure function `Request → Response`; request bodies and
  transport failures are not inspected by any claim and are left out of
  `Request`.  `bool` attribute and element text goes through Go's
  `strconv.ParseBool`, whose failure makes decoding fail.
-/

deriving instance DecidableEq for Except

/-- An XML attribute as written on the wire (attribute names in this dialect
are never prefixed, so no namespace is recorded). -/
structure XAttr where
  name : String
  value : String
deriving DecidableEq, Repr

/-- An XML element with resolved namespace, local name, attributes, child
elements, and the accumulated character data of the element. -/
inductive Xml where
  | mk (space localName : String) (attrs : List XAttr) (children : List Xml) (chardata : String)

/-- Namespace URI of the element's resolved name. -/
def Xml.space : Xml → String
  | .mk s _ _ _ _ => s

/-- Local part of the element's resolved name. -/
def Xml.localName : Xml → String
  | .mk _ l _ _ _ => l

/-- Attributes of the element. -/
def Xml.attrs : Xml → List XAttr
  | .mk _ _ a _ _ => a

/-- Child elements, in document order. -/
def Xml.children : Xml → List Xml
  | .mk _ _ _ c _ => c

/-- Character data accumulated inside the element. -/
def Xml.chardata : Xml → String
  | .mk _ _ _ _ d => d

/-- The Atom namespace (`http://www.w3.org/2005/Atom`). -/
def atomNS : String := "http://www.w3.org/2005/Atom"

/-- The GData extension namespace (`http://schemas.google.com/g/2005`). -/
def gdNS : String := "http://schemas.google.com/g/2005"

/-- The fixed contact-kind category term checked by `ContactKind.UnmarshalXML`. -/
def contactTerm : String := "http://schemas.google.com/contact/2008#contact"

/-- ASCII white space, the cases of Go's `unicode.IsSpace` that occur here. -/
def goIsSpace (c : Char) : Bool :=
  c = ' ' || c = '\t' || c = '\n' || c = '\u000b' || c = '\u000c' || c = '\r'

/-- Go's `strings.TrimSpace` (leading and trailing white space removed). -/
def goTrimSpace (s : String) : String :=
  ⟨((s.data.dropWhile goIsSpace).reverse.dropWhile goIsSpace).reverse⟩

/-- Go's `strconv.ParseBool`: the accepted spellings, anything else is an
error.  `encoding/xml` trims the source text before calling it. -/
def parseGoBool (s : String) : Except String Bool :=
  if s = "1" ∨ s = "t" ∨ s = "T" ∨ s = "true" ∨ s = "TRUE" ∨ s = "True" then .ok true
  else if s = "0" ∨ s = "f" ∨ s = "F" ∨ s = "false" ∨ s = "FALSE" ∨ s = "False" then .ok false
  else .error ("strconv.ParseBool: parsing " ++ s ++ ": invalid syntax")

/-- A Go `map[string]string`, kept as an association list with unique keys. -/
abbrev GoMap : Type := List (String × String)

/-- Go map assignment `m[k] = v`: replace the binding of `k` in place, or
append a new binding. -/
def GoMap.insert (m : GoMap) (k v : String) : GoMap :=
  match m with
  | [] => [(k, v)]
  | (k', v') :: rest =>
      if k' = k then (k, v) :: rest else (k', v') :: GoMap.insert rest k v

/-- Go map read `m[k]` (with its second result): the bound value, if any. -/
def GoMap.lookup (m : GoMap) (k : String) : Option String :=
  match m with
  | [] => none
  | (k', v') :: rest => if k' = k then some v' else GoMap.lookup rest k

/-- Go `for k, v := range m` feeding map assignments, used to copy a map. -/
def GoMap.copy (m : GoMap) : GoMap :=
  m.foldl (fun acc kv => acc.insert kv.1 kv.2) ([] : GoMap)

/-- Structured name (`GDName` in `encoding.go`). -/
structure GDName where
  GivenName : String
  AdditionalName : String
  FamilyName : String
  Prefix : String
  Suffix : String
  FullName : String
deriving DecidableEq, Repr

/-- The zero `GDName`. -/
def GDName.zero : GDName := ⟨"", "", "", "", "", ""⟩

/-- Email sub-structure (`GDEmail`). -/
structure GDEmail where
  Address : String
  Related : String
  Label : String
  Primary : Bool
  DisplayName : String
deriving DecidableEq, Repr

/-- The zero `GDEmail`. -/
def GDEmail.zero : GDEmail := ⟨"", "", "", false, ""⟩

/-- Phone-number sub-structure (`GDPhoneNumber`). -/
structure GDPhoneNumber where
  Related : String
  Label : String
  URI : String
  Primary : Bool
  DialNumber : String
deriving DecidableEq, Repr

/-- The zero `GDPhoneNumber`. -/
def GDPhoneNumber.zero : GDPhoneNumber := ⟨"", "", "", false, ""⟩

/-- Instant-message sub-structure (`GDIM`). -/
structure GDIM where
  Address : String
  Label : String
  Related : String
  Protocol : String
  Primary : Bool
deriving DecidableEq, Repr

/-- The zero `GDIM`. -/
def GDIM.zero : GDIM := ⟨"", "", "", "", false⟩

/-- Postal-address sub-structure (`GDStructuredPostalAddress`). -/
structure GDStructuredPostalAddress where
  Related : String
  MailClass : String
  Usage : String
  Label : String
  Primary : Bool
  Agent : String
  HouseName : String
  Pobox : String
  Neighborhood : String
  City : String
  Street : String
  Region : String
  SubRegion : String
  PostCode : String
  Country : String
  FormattedAddress : String
deriving DecidableEq, Repr

/-- The zero `GDStructuredPostalAddress`. -/
def GDStructuredPostalAddress.zero : GDStructuredPostalAddress :=
  ⟨"", "", "", "", false, "", "", "", "", "", "", "", "", "", "", ""⟩

/-- Extended-property sub-structure (`GDExtendedProperty`). -/
structure GDExtendedProperty where
  Name : String
  Value : String
  Realm : String
deriving DecidableEq, Repr

/-- The zero `GDExtendedProperty`. -/
def GDExtendedProperty.zero : GDExtendedProperty := ⟨"", "", ""⟩

/-- A `link` element of an entry or feed (`Link` in `encoding.go`). -/
structure Link where
  Related : String
  Type' : String
  Href : String
deriving DecidableEq, Repr

/-- The central contact record (`ContactKind`); lower-case fields are the
unexported, server-managed ones. -/
structure ContactKind where
  Name : GDName
  Email : List GDEmail
  PhoneNumber : List GDPhoneNumber
  StructuredPostalAddress : List GDStructuredPostalAddress
  IM : List GDIM
  ExtendedProperty : GoMap
  deleted : Bool
  editLink : String
  photoLink : String
  selfLink : String
  id : String
  updated : String
  content : String
  etag : String
deriving DecidableEq, Repr

/-- The zero `ContactKind`. -/
def ContactKind.zero : ContactKind :=
  ⟨GDName.zero, [], [], [], [], (∅ : GoMap), false, "", "", "", "", "", "", ""⟩

/-! ### Encode side of the wire codec (`MarshalXML` implementations)

Go's `encoding/xml` renders a string field tagged `,attr,omitempty` only
when it is non-empty, a bool likewise only when true (as `"true"`), and an
element field tagged `,omitempty` only when non-zero.  The encoder writes
prefixed names (`gd:email`) under the two namespace declarations placed on
`entry`; elements are modelled by their resolved names. -/

/-- An `,attr,omitempty` string attribute. -/
def optAttr (n v : String) : List XAttr :=
  if v = "" then [] else [⟨n, v⟩]

/-- An `,attr,omitempty` bool attribute (Go renders `true`). -/
def optBoolAttr (n : String) (b : Bool) : List XAttr :=
  if b then [⟨n, "true"⟩] else []

/-- An `,omitempty` child element holding only character data, in the GData
namespace (written `gd:<n>` by the encoder). -/
def optElem (n v : String) : List Xml :=
  if v = "" then [] else [.mk gdNS n [] [] v]

/-- `GDName.MarshalXML`: emits `gd:name` with one `,omitempty` child per leaf
and trims the full name. -/
def GDName.marshal (n : GDName) : Xml :=
  .mk gdNS "name" []
    (optElem "givenName" n.GivenName ++ optElem "additionalName" n.AdditionalName ++
      optElem "familyName" n.FamilyName ++ optElem "namePrefix" n.Prefix ++
      optElem "nameSuffix" n.Suffix ++ optElem "fullName" (goTrimSpace n.FullName)) ""

/-- `GDEmail.MarshalXML`: `gd:email` with `address` always present and the
other attributes `,omitempty`. -/
def GDEmail.marshal (m : GDEmail) : Xml :=
  .mk gdNS "email"
    ([⟨"address", m.Address⟩] ++ optAttr "rel" m.Related ++ optAttr "label" m.Label ++
      optBoolAttr "primary" m.Primary ++ optAttr "displayName" m.DisplayName) [] ""

/-- `GDPhoneNumber.MarshalXML`: `gd:phoneNumber` with `,omitempty` attributes
and the trimmed dial string as character data. -/
def GDPhoneNumber.marshal (p : GDPhoneNumber) : Xml :=
  .mk gdNS "phoneNumber"
    (optAttr "rel" p.Related ++ optAttr "label" p.Label ++ optAttr "uri" p.URI ++
      optBoolAttr "primary" p.Primary) [] (goTrimSpace p.DialNumber)

/-- `GDIM.MarshalXML`: `gd:im` with `address` always present and the other
attributes `,omitempty`. -/
def GDIM.marshal (im : GDIM) : Xml :=
  .mk gdNS "im"
    ([⟨"address", im.Address⟩] ++ optAttr "label" im.Label ++ optAttr "rel" im.Related ++
      optAttr "protocol" im.Protocol ++ optBoolAttr "primary" im.Primary) [] ""

/-- `GDStructuredPostalAddress.MarshalXML`: `gd:structuredPostalAddress` with
`,omitempty` attributes and `,omitempty` children. -/
def GDStructuredPostalAddress.marshal (a : GDStructuredPostalAddress) : Xml :=
  .mk gdNS "structuredPostalAddress"
    (optAttr "rel" a.Related ++ optAttr "mailClass" a.MailClass ++
      optAttr "usage" a.Usage ++ optAttr "label" a.Label ++ optBoolAttr "primary" a.Primary)
    (optElem "agent" a.Agent ++ optElem "housename" a.HouseName ++ optElem "pobox" a.Pobox ++
      optElem "neighborhood" a.Neighborhood ++ optElem "city" a.City ++
      optElem "street" a.Street ++ optElem "region" a.Region ++
      optElem "subregion" a.SubRegion ++ optElem "postcode" a.PostCode ++
      optElem "country" a.Country ++ optElem "formattedAddress" a.FormattedAddress) ""

/-- `GDExtendedProperty.MarshalXML`: `gd:extendedProperty` with `name` always
present and `value`/`realm` `,omitempty`. -/
def GDExtendedProperty.marshal (p : GDExtendedProperty) : Xml :=
  .mk gdNS "extendedProperty"
    ([⟨"name", p.Name⟩] ++ optAttr "value" p.Value ++ optAttr "realm" p.Realm) [] ""

/-- `ContactKind.MarshalXML`: the encode-side anonymous struct copies the
caller-settable fields and emits an `entry` element (no default namespace,
only the `xmlns:atom`/`xmlns:gd` declarations).  The source builds the
`PhoneNumber`, `StructuredPostalAddress`, `IM` and `ExtendedProperty` slices
with `make([]T, len(...))` followed by `append`, so each of those sequences
is emitted with `len` zero-valued entries in front of the real ones; only
`Email` uses `make([]T, 0, len(...))`.  The map is iterated in list order. -/
def ContactKind.marshal (c : ContactKind) : Xml :=
  .mk "" "entry"
    [⟨"xmlns:atom", atomNS⟩, ⟨"xmlns:gd", gdNS⟩]
    ([GDName.marshal c.Name] ++
      c.Email.map GDEmail.marshal ++
      (List.replicate c.PhoneNumber.length GDPhoneNumber.zero ++ c.PhoneNumber).map
        GDPhoneNumber.marshal ++
      (List.replicate c.StructuredPostalAddress.length GDStructuredPostalAddress.zero ++
        c.StructuredPostalAddress).map GDStructuredPostalAddress.marshal ++
      [Xml.mk "" "content" [] [] c.content] ++
      [Xml.mk "" "category" [⟨"scheme", gdNS ++ "#kind"⟩, ⟨"term", contactTerm⟩] [] ""] ++
      (List.replicate c.ExtendedProperty.length GDExtendedProperty.zero ++
        c.ExtendedProperty.map (fun kv => GDExtendedProperty.mk kv.1 kv.2 "")).map
        GDExtendedProperty.marshal ++
      (List.replicate c.IM.length GDIM.zero ++ c.IM).map GDIM.marshal) ""

/-! ### Decode side of the wire codec (`UnmarshalXML` implementations)

Field matching follows `encoding/xml`: a namespaced struct tag matches
children by resolved namespace and local name, a bare tag by local name
only; for a non-slice field repeated matches overwrite (last one wins);
slice fields collect every match in document order; a missing element or
attribute leaves the zero value.  `bool` text is trimmed and parsed with
`strconv.ParseBool`, whose failure aborts the decode. -/

/-- Children matching a namespaced struct tag. -/
def childrenNS (x : Xml) (sp lo : String) : List Xml :=
  x.children.filter (fun c => c.space == sp && c.localName == lo)

/-- Children matching a tag with no namespace (any `space`). -/
def childrenLocal (x : Xml) (lo : String) : List Xml :=
  x.children.filter (fun c => c.localName == lo)

/-- A non-slice, bare-tagged string element field: last match's character
data, `""` when absent. -/
def childStr (x : Xml) (lo : String) : String :=
  ((childrenLocal x lo).getLast?).elim "" Xml.chardata

/-- A string attribute field: last attribute of that name, `""` when absent. -/
def attrStr (x : Xml) (n : String) : String :=
  ((x.attrs.filter (fun a => a.name == n)).getLast?).elim "" XAttr.value

/-- A bool attribute field: absent means `false`, present goes through
`strconv.ParseBool` on the trimmed value. -/
def attrBool (x : Xml) (n : String) : Except String Bool :=
  match (x.attrs.filter (fun a => a.name == n)).getLast? with
  | none => .ok false
  | some a => parseGoBool (goTrimSpace a.value)

/-- A bool element field with a namespaced tag: absent means `false`,
present goes through `strconv.ParseBool` on the trimmed character data. -/
def elemBoolNS (x : Xml) (sp lo : String) : Except String Bool :=
  match (childrenNS x sp lo).getLast? with
  | none => .ok false
  | some c => parseGoBool (goTrimSpace c.chardata)

/-- `GDName.UnmarshalXML`: bare-tagged leaves, full name trimmed. -/
def GDName.unmarshal (x : Xml) : GDName :=
  { GivenName := childStr x "givenName"
    AdditionalName := childStr x "additionalName"
    FamilyName := childStr x "familyName"
    Prefix := childStr x "namePrefix"
    Suffix := childStr x "nameSuffix"
    FullName := goTrimSpace (childStr x "fullName") }

/-- Decode of a `GDEmail` element (no custom unmarshaler: the struct tags on
`GDEmail` itself apply). -/
def GDEmail.unmarshal (x : Xml) : Except String GDEmail := do
  let primary ← attrBool x "primary"
  pure { Address := attrStr x "address", Related := attrStr x "rel"
         Label := attrStr x "label", Primary := primary
         DisplayName := attrStr x "displayName" }

/-- `GDPhoneNumber.UnmarshalXML`: attributes plus the trimmed dial string. -/
def GDPhoneNumber.unmarshal (x : Xml) : Except String GDPhoneNumber := do
  let primary ← attrBool x "primary"
  pure { Related := attrStr x "rel", Label := attrStr x "label"
         URI := attrStr x "uri", Primary := primary
         DialNumber := goTrimSpace x.chardata }

/-- Decode of a `GDIM` element (struct tags, no custom unmarshaler). -/
def GDIM.unmarshal (x : Xml) : Except String GDIM := do
  let primary ← attrBool x "primary"
  pure { Address := attrStr x "address", Label := attrStr x "label"
         Related := attrStr x "rel", Protocol := attrStr x "protocol"
         Primary := primary }

/-- `GDStructuredPostalAddress.UnmarshalXML`.  The source assigns
`a.Region = o.Related` first (line 430) and assigns `a.Region = o.Region`
again later (line 441), so the first assignment is dead and `a.Related`
itself is never assigned: the decoded `rel` attribute is dropped and
`Related` keeps the receiver's zero value. -/
def GDStructuredPostalAddress.unmarshal (x : Xml) : Except String GDStructuredPostalAddress := do
  let primary ← attrBool x "primary"
  pure { Related := ""
         MailClass := attrStr x "mailClass", Usage := attrStr x "usage"
         Label := attrStr x "label", Primary := primary
         Agent := childStr x "agent", HouseName := childStr x "housename"
         Pobox := childStr x "pobox", Neighborhood := childStr x "neighborhood"
         City := childStr x "city", Street := childStr x "street"
         Region := childStr x "region", SubRegion := childStr x "subregion"
         PostCode := childStr x "postcode", Country := childStr x "country"
         FormattedAddress := childStr x "formattedAddress" }

/-- Decode of a `GDExtendedProperty` element (struct tags only). -/
def GDExtendedProperty.unmarshal (x : Xml) : GDExtendedProperty :=
  { Name := attrStr x "name", Value := attrStr x "value", Realm := attrStr x "realm" }

/-- Decode of a `Link` element (struct tags only). -/
def Link.unmarshal (x : Xml) : Link :=
  { Related := attrStr x "rel", Type' := attrStr x "type", Href := attrStr x "href" }

/-- The entry's category term as the decode-side anonymous struct sees it:
the `term` attribute of the last `category` child, `""` when absent. -/
def categoryTermOf (x : Xml) : String :=
  ((childrenLocal x "category").getLast?).elim "" (fun c => attrStr c "term")

/-- The decoded `gd:extendedProperty` children of an entry, in document
order. -/
def extendedPropsOf (x : Xml) : List GDExtendedProperty :=
  (childrenNS x gdNS "extendedProperty").map GDExtendedProperty.unmarshal

/-- The decode-side anonymous struct of `ContactKind.UnmarshalXML`
(`decodeContactKind` in the source). -/
structure DecodeContactKind where
  Etag : String
  CategoryTerm : String
  ID : String
  Updated : String
  Title : String
  Content : String
  Name : GDName
  Email : List GDEmail
  Deleted : Bool
  PhoneNumber : List GDPhoneNumber
  StructuredPostalAddress : List GDStructuredPostalAddress
  Link : List Link
  ExtendedProperty : List GDExtendedProperty
  IM : List GDIM
deriving DecidableEq, Repr

/-- `d.DecodeElement(&o, &start)` for the anonymous struct: the `XMLName`
field requires `entry` in the Atom namespace, then every field is read. -/
def decodeContactKindRaw (x : Xml) : Except String DecodeContactKind :=
  if x.localName ≠ "entry" then
    .error ("expected element type <entry> but have <" ++ x.localName ++ ">")
  else if x.space ≠ atomNS then
    .error ("expected element <entry> in name space " ++ atomNS ++ " but have " ++ x.space)
  else do
    let emails ← (childrenNS x gdNS "email").mapM GDEmail.unmarshal
    let deleted ← elemBoolNS x gdNS "deleted"
    let phones ← (childrenNS x gdNS "phoneNumber").mapM GDPhoneNumber.unmarshal
    let addrs ← (childrenNS x gdNS "structuredPostalAddress").mapM
      GDStructuredPostalAddress.unmarshal
    let ims ← (childrenNS x gdNS "im").mapM GDIM.unmarshal
    pure { Etag := attrStr x "etag", CategoryTerm := categoryTermOf x
           ID := childStr x "id", Updated := childStr x "updated"
           Title := childStr x "title", Content := childStr x "content"
           Name := ((childrenNS x gdNS "name").getLast?).elim GDName.zero GDName.unmarshal
           Email := emails, Deleted := deleted, PhoneNumber := phones
           StructuredPostalAddress := addrs
           Link := (childrenNS x atomNS "link").map Link.unmarshal
           ExtendedProperty := extendedPropsOf x
           IM := ims }

/-- One step of the link-relation switch in `ContactKind.UnmarshalXML`. -/
def applyLink (c : ContactKind) (l : Link) : ContactKind :=
  if l.Related = "http://schemas.google.com/contacts/2008/rel#photo" then
    { c with photoLink := l.Href }
  else if l.Related = "self" then { c with selfLink := l.Href }
  else if l.Related = "edit" then { c with editLink := l.Href }
  else c

/-- The last-wins collapse of decoded `(name, value)` pairs into the
`ExtendedProperty` map (`c.ExtendedProperty[pair.Name] = pair.Value`). -/
def buildExtendedProperty (ps : List GDExtendedProperty) : GoMap :=
  ps.foldl (fun m p => m.insert p.Name p.Value) ([] : GoMap)

/-- `ContactKind.UnmarshalXML`: decode the anonymous struct, require the
contact-kind category term, then copy fields, extract the photo/self/edit
links and collapse the extended properties. -/
def ContactKind.unmarshal (x : Xml) : Except String ContactKind :=
  match decodeContactKindRaw x with
  | .error e => .error e
  | .ok o =>
      if o.CategoryTerm ≠ contactTerm then
        .error ("xml type not match: expect " ++ contactTerm ++ ", got " ++ o.CategoryTerm)
      else
        .ok (o.Link.foldl applyLink
          { Name := o.Name, Email := o.Email, PhoneNumber := o.PhoneNumber
            StructuredPostalAddress := o.StructuredPostalAddress, IM := o.IM
            ExtendedProperty := buildExtendedProperty o.ExtendedProperty
            deleted := o.Deleted, editLink := "", photoLink := "", selfLink := ""
            id := o.ID, updated := o.Updated, content := o.Content, etag := o.Etag })

/-! ### Service layer (`part_000`) -/

/-- `ContactKind.Clone`.  The source builds `Email`, `PhoneNumber` and
`StructuredPostalAddress` with `make([]T, len(...))` followed by a loop of
`append`, so each of those copies carries `len` zero-valued entries in
front of the originals; `IM` uses `make([]T, 0, len(...))` and is copied
exactly; the extended-property map is copied entry by entry. -/
def ContactKind.Clone (c : ContactKind) : ContactKind :=
  { Name := c.Name
    Email := List.replicate c.Email.length GDEmail.zero ++ c.Email
    PhoneNumber := List.replicate c.PhoneNumber.length GDPhoneNumber.zero ++ c.PhoneNumber
    StructuredPostalAddress :=
      List.replicate c.StructuredPostalAddress.length GDStructuredPostalAddress.zero ++
        c.StructuredPostalAddress
    IM := c.IM
    ExtendedProperty := c.ExtendedProperty.copy
    deleted := c.deleted, editLink := c.editLink, photoLink := c.photoLink
    selfLink := c.selfLink, id := c.id, updated := c.updated
    content := c.content, etag := c.etag }

/-- An HTTP request as far as any claim inspects one: method, URL and the
two conditional headers (`If-None-Match`, `If-Match`).  Bodies (the
marshalled contact on POST/PUT) are not inspected by any claim. -/
structure Request where
  method : String
  url : String
  ifNoneMatch : Option String
  ifMatch : Option String
deriving DecidableEq, Repr

/-- An HTTP response: status code and decoded-XML body. -/
structure Response where
  status : Nat
  body : Xml

/-- The `service` struct: endpoint URL and default projection (the injected
HTTP client is passed to each operation as a pure `Request → Response`). -/
structure Svc where
  endpoint : String
  projection : String
deriving DecidableEq, Repr

/-- `setDefaultProjection`: empty means `"full"`. -/
def setDefaultProjection (p : String) : String :=
  if p = "" then "full" else p

/-- `NewService` (the transport-wrapping part is the injected client). -/
def NewService (domain defaultProjection : String) : Svc :=
  ⟨"https://www.google.com/m8/feeds/contacts/" ++ domain, setDefaultProjection defaultProjection⟩

/-- `service.getPojection` (sic): request-scoped projection or the default. -/
def Svc.getPojection (s : Svc) (p : String) : String :=
  if p ≠ "" then p else s.projection

/-- `service.getContact`: one GET to `{endpoint}/{projection}/{id}`, with
`If-None-Match` set only for a non-empty, non-wildcard version tag; an HTTP
304 yields the `(nil, nil)` sentinel, otherwise the body is decoded.  The
first component is the list of issued requests. -/
def Svc.getContact (s : Svc) (server : Request → Response) (id projection etag : String) :
    List Request × Except String (Option ContactKind) :=
  let req : Request :=
    { method := "GET", url := s.endpoint ++ "/" ++ s.getPojection projection ++ "/" ++ id
      ifNoneMatch := if etag ≠ "" ∧ etag ≠ "*" then some etag else none
      ifMatch := none }
  let res := server req
  ([req],
    if res.status = 304 then .ok none
    else (ContactKind.unmarshal res.body).map some)

/-- `service.GetContact`, the public wrapper (its error prefix only dresses
transport errors, which are outside the model). -/
def Svc.GetContact (s : Svc) (server : Request → Response) (id projection etag : String) :
    List Request × Except String (Option ContactKind) :=
  s.getContact server id projection etag

/-- `service.UpdateContact`: re-fetch with the `"full"` projection and no
conditional header, fail unless the caller's tag matches the fetched tag or
is the wildcard, then PUT the encoded contact to the fetched edit link with
`If-Match`; only HTTP 200 is accepted.  A 304 on the inner GET would make
the source dereference a nil `*ContactKind`, modelled as the runtime
error. -/
def Svc.UpdateContact (s : Svc) (server : Request → Response) (id etag : String)
    (_p : ContactKind) : List Request × Except String ContactKind :=
  match s.getContact server id "full" "" with
  | (tr, .error e) => (tr, .error e)
  | (tr, .ok none) =>
      (tr, .error "runtime error: invalid memory address or nil pointer dereference")
  | (tr, .ok (some op)) =>
      if op.etag ≠ etag ∧ etag ≠ "*" then
        (tr, .error "UpdateContact error: etag not match")
      else
        let req : Request :=
          { method := "PUT", url := op.editLink, ifNoneMatch := none, ifMatch := some etag }
        let res := server req
        if res.status ≠ 200 then
          (tr ++ [req], .error ("expect get HTTP status OK, got: " ++ toString res.status))
        else
          match ContactKind.unmarshal res.body with
          | .ok ret => (tr ++ [req], .ok ret)
          | .error e => (tr ++ [req], .error e)

/-- `service.DeleteContact`: re-fetch with the `"thin"` projection, apply
the same version-tag comparison (the source's error message still says
`UpdateContact`), then DELETE the fetched edit link with `If-Match`; the
DELETE's status code is not checked. -/
def Svc.DeleteContact (s : Svc) (server : Request → Response) (id etag : String) :
    List Request × Except String Unit :=
  match s.getContact server id "thin" "" with
  | (tr, .error e) => (tr, .error e)
  | (tr, .ok none) =>
      (tr, .error "runtime error: invalid memory address or nil pointer dereference")
  | (tr, .ok (some op)) =>
      if op.etag ≠ etag ∧ etag ≠ "*" then
        (tr, .error "UpdateContact error: etag not match")
      else
        let req : Request :=
          { method := "DELETE", url := op.editLink, ifNoneMatch := none, ifMatch := some etag }
        let _ := server req
        (tr ++ [req], .ok ())

/-- `url.Values` as the option functions use it: `Set` replaces a key's
value. -/
abbrev Values : Type := GoMap

/-- `url.Values.Set`. -/
def Values.set (v : Values) (k val : String) : Values := GoMap.insert v k val

/-- `withStrict`: forces `strict=true`. -/
def withStrict (v : Values) : Values := v.set "strict" "true"

/-- `WithMaxResults`. -/
def WithMaxResults (n : Nat) (v : Values) : Values := v.set "max-results" (toString n)

/-- `WithStartIndex`. -/
def WithStartIndex (n : Nat) (v : Values) : Values := v.set "start-index" (toString n)

/-- `WithUpdateMin` (`t` stands for the RFC3339-formatted time). -/
def WithUpdateMin (t : String) (v : Values) : Values := v.set "updated-min" t

/-- `WithUpdateMax` (`t` stands for the RFC3339-formatted time). -/
def WithUpdateMax (t : String) (v : Values) : Values := v.set "updated-max" t

/-- `WithShowDeleted`. -/
def WithShowDeleted (b : Bool) (v : Values) : Values :=
  v.set "showdeleted" (if b then "true" else "false")

/-- `WithSort`. -/
def WithSort (asc : String) (v : Values) : Values :=
  (v.set "orderby" "lastmodified").set "sortorder" asc

/-- `FilterByAuthor`. -/
def FilterByAuthor (name : String) (v : Values) : Values := v.set "author" name

/-- `FilterByCategory`. -/
def FilterByCategory (filters : String) (v : Values) : Values := v.set "category" filters

/-- The string `WithTextQuery` builds into the `q` parameter.  The loop
writes a space before every term after the first, but writes a term itself
only when it starts with `-` (as `-"term"`); there is no branch for
non-negated terms, so they are dropped. -/
def textQueryString (texts : List String) : String :=
  (texts.mapIdx (fun idx t =>
    (if idx ≠ 0 then " " else "") ++
      (if "-".data.isPrefixOf t.data then "-\"" ++ String.mk (t.data.drop 1) ++ "\"" else ""))).foldl
    (· ++ ·) ""

/-- `WithTextQuery`. -/
def WithTextQuery (texts : List String) (v : Values) : Values :=
  v.set "q" (textQueryString texts)

/-- The querying state returned after a full list traversal. -/
structure QueryStatus where
  Updated : String
  Etag : String
deriving DecidableEq, Repr

/-- The per-page anonymous `feed` struct of `ListContacts`, already
decoded: version tag, updated timestamp, link collection and the page's
contacts in document order. -/
structure Feed where
  Etag : String
  Updated : String
  Links : List Link
  Contacts : List ContactKind
deriving DecidableEq, Repr

/-- The inner loop of `ListContacts` over a page's links: on the first
`next` relation a GET to that link verbatim becomes the pending request
(`break`); every other link clears the pending request; and when the link
collection is empty the loop body never runs, so the pending request is
returned unchanged. -/
def scanNext (req : Option Request) : List Link → Option Request
  | [] => req
  | l :: rest =>
      if l.Related = "next" then
        some { method := "GET", url := l.Href, ifNoneMatch := none, ifMatch := none }
      else scanNext none rest

/-- The `for req != nil` loop of `ListContacts`.  `fetch` is the injected
transport composed with the feed decode (both always succeed here: no claim
concerns a failing page request).  `fuel` bounds the number of iterations
so the source's unbounded loop is total; `none` means the bound was hit
with the loop still running. -/
def listLoop (fetch : Request → Feed) :
    Nat → Option Request → List ContactKind → QueryStatus →
    Option (List ContactKind × QueryStatus)
  | _, none, ret, st => some (ret, st)
  | 0, some _, _, _ => none
  | fuel + 1, some req, ret, st =>
      let f := fetch req
      let ret' := ret ++ f.Contacts.map ContactKind.Clone
      let req' := scanNext (some req) f.Links
      let st' := if req' = none then ⟨f.Updated, f.Etag⟩ else st
      listLoop fetch fuel req' ret' st'

/-- `url.Values.Encode`, simplified: percent-encoding and key sorting are
abstracted away (no claim inspects the encoded query string). -/
def encodeValues (v : Values) : String :=
  String.intercalate "&" (v.map (fun kv => kv.1 ++ "=" ++ kv.2))

/-- `service.ListContacts`: build the first-page URL (forcing `strict=true`
whenever at least one option is given), set `If-None-Match` from the feed
version tag on the first request only, then run the page loop starting with
the empty result and a zero `QueryStatus`. -/
def Svc.ListContacts (s : Svc) (fetch : Request → Feed) (fuel : Nat)
    (projection etag : String) (queries : List (Values → Values)) :
    Option (List ContactKind × QueryStatus) :=
  let u :=
    if queries.length > 0 then
      let params := queries.foldl (fun v q => q v) (withStrict ([] : Values))
      s.endpoint ++ "/" ++ s.getPojection projection ++ "?" ++ encodeValues params
    else s.endpoint ++ "/" ++ s.getPojection projection
  let req : Request :=
    { method := "GET", url := u
      ifNoneMatch := if etag ≠ "" then some etag else none, ifMatch := none }
  listLoop fetch fuel (some req) [] ⟨"", ""⟩


/-! ### Predicates and fixtures used by the claim theorems -/

/-- Does the element carry an attribute of this name? -/
def hasAttr (x : Xml) (n : String) : Bool :=
  x.attrs.any (fun a => a.name == n)

/-- Does the element carry a child element of this local name? -/
def hasChild (x : Xml) (lo : String) : Bool :=
  x.children.any (fun c => c.localName == lo)

/-- The page loop runs out of every amount of fuel from `req` onward,
whatever was accumulated so far: the traversal never terminates. -/
def listLoopStuck (fetch : Request → Feed) (req : Request) : Prop :=
  ∀ fuel ret st, listLoop fetch fuel (some req) ret st = none

/-- A postal address carrying a `rel` attribute, as the spec's round-trip
property quantifies over. -/
def c1Addr : GDStructuredPostalAddress :=
  { GDStructuredPostalAddress.zero with
      Related := "http://schemas.google.com/g/2005#work"
      City := "Mountain View", Street := "1600 Amphitheatre Pkwy" }

/-- The single email of the page used to exhibit C2's failure. -/
def c2Email : GDEmail :=
  ⟨"liz@gmail.com", "http://schemas.google.com/g/2005#work", "", true, ""⟩

/-- A contact carried by the synthetic feed page. -/
def c2Contact : ContactKind := { ContactKind.zero with Email := [c2Email] }

/-- A last (and only) feed page: one contact, a link collection with no
`next` relation. -/
def c2Feed : Feed :=
  { Etag := "E1", Updated := "U1", Links := [⟨"self", "", "https://feed/self"⟩]
    Contacts := [c2Contact] }

/-- The service under test for C2. -/
def c2Svc : Svc := NewService "example.com" ""

/-- The service under test for C3. -/
def c3Svc : Svc := NewService "example.com" ""

/-- The entry every GET of C3's server returns: correct category, version
tag `"A"`, an edit link. -/
def c3Entry : Xml :=
  .mk atomNS "entry" [⟨"etag", "A"⟩]
    [.mk "" "category" [⟨"term", contactTerm⟩] [] "",
     .mk atomNS "link" [⟨"rel", "edit"⟩, ⟨"type", "application/atom+xml"⟩,
       ⟨"href", "https://edit/1"⟩] [] ""] ""

/-- C3's server: every request gets HTTP 200 with `c3Entry`. -/
def c3Server : Request → Response := fun _ => ⟨200, c3Entry⟩

/-- The contact `c3Entry` decodes to. -/
def c3Ct : ContactKind := { ContactKind.zero with editLink := "https://edit/1", etag := "A" }

/-- The service under test for C4. -/
def c4Svc : Svc := NewService "example.com" ""

/-- C4's server: every request gets HTTP 304. -/
def c4Server : Request → Response := fun _ => ⟨304, .mk "" "x" [] [] ""⟩

/-- The contact used to exhibit C5's failure. -/
def c5Contact : ContactKind :=
  { ContactKind.zero with
      Email := [⟨"a@b.com", "http://schemas.google.com/g/2005#home", "", false, ""⟩]
      PhoneNumber := [⟨"", "", "", false, "555"⟩]
      IM := [⟨"foo@bar.msn.com", "", "http://schemas.google.com/g/2005#home", "", false⟩] }

/-- A feed page whose link collection is empty (no `next`, no links at
all). -/
def c6Feed : Feed :=
  { Etag := "E3", Updated := "2023-08-18T09:54:17Z", Links := [], Contacts := [] }

/-- The first-page request of the chain used for C6. -/
def c6Req : Request :=
  { method := "GET", url := "https://www.google.com/m8/feeds/contacts/ex.com/full"
    ifNoneMatch := none, ifMatch := none }

/-- An entry whose category term is a different kind (the group kind). -/
def c8Entry : Xml :=
  .mk atomNS "entry" []
    [.mk "" "category" [⟨"term", "http://schemas.google.com/contact/2008#group"⟩] [] ""] ""

/-- What the decode-side anonymous struct reads from `c8Entry`. -/
def c8Raw : DecodeContactKind :=
  ⟨"", "http://schemas.google.com/contact/2008#group", "", "", "", "",
    GDName.zero, [], false, [], [], [], [], []⟩

attribute [simp] Xml.space Xml.localName Xml.attrs Xml.children Xml.chardata

/-! ### Helper lemmas -/

/-- Inversion of a successful `Except` bind. -/
theorem exceptBind_ok {ε α β : Type} {x : Except ε α} {f : α → Except ε β} {b : β}
    (h : x >>= f = Except.ok b) : ∃ a, x = Except.ok a ∧ f a = Except.ok b := by
  cases x with
  | error e => simp [Bind.bind, Except.bind] at h
  | ok a => exact ⟨a, rfl, by simpa [Bind.bind, Except.bind] using h⟩

/-- A successful raw decode reads the category term and the extended
properties straight off the element. -/
theorem decodeContactKindRaw_ok_fields (x : Xml) (o : DecodeContactKind)
    (h : decodeContactKindRaw x = .ok o) :
    o.CategoryTerm = categoryTermOf x ∧ o.ExtendedProperty = extendedPropsOf x := by
  unfold decodeContactKindRaw at h
  split at h
  · simp at h
  split at h
  · simp at h
  obtain ⟨es, -, h⟩ := exceptBind_ok h
  obtain ⟨dl, -, h⟩ := exceptBind_ok h
  obtain ⟨ph, -, h⟩ := exceptBind_ok h
  obtain ⟨ad, -, h⟩ := exceptBind_ok h
  obtain ⟨im, -, h⟩ := exceptBind_ok h
  cases h
  exact ⟨rfl, rfl⟩

/-- Reading a key after a Go map assignment. -/
theorem GoMap.lookup_insert (m : GoMap) (k v q : String) :
    GoMap.lookup (m.insert k v) q = if k = q then some v else m.lookup q := by
  induction m with
  | nil => simp [GoMap.insert, GoMap.lookup]
  | cons kv rest ih =>
      obtain ⟨k', v'⟩ := kv
      by_cases h1 : k' = k
      · subst h1
        simp [GoMap.insert, GoMap.lookup]
        by_cases h2 : k' = q <;> simp [h2]
      · simp [GoMap.insert, h1, GoMap.lookup]
        by_cases h2 : k' = q
        · subst h2
          have : ¬(k = k') := fun hk => h1 hk.symm
          simp [this, ih]
        · simp [h2, ih]

/-- Folding map assignments over decoded pairs: a key reads as the value of
the last pair carrying it, or as whatever the starting map holds. -/
theorem buildExtendedProperty_lookup_aux (ps : List GDExtendedProperty) (m : GoMap) (n : String) :
    GoMap.lookup (ps.foldl (fun m p => m.insert p.Name p.Value) m) n =
      (match (ps.filter (fun p => p.Name == n)).getLast? with
        | some p => some p.Value
        | none => m.lookup n) := by
  induction ps using List.reverseRecOn generalizing m with
  | nil => simp
  | append_singleton rest p ih =>
      rw [List.foldl_append, List.foldl_cons, List.foldl_nil, List.filter_append,
        GoMap.lookup_insert]
      by_cases hp : p.Name = n
      · have hb : (List.filter (fun p => p.Name == n) [p]) = [p] := by simp [hp]
        rw [hb, List.getLast?_concat, if_pos hp]
      · have hb : (List.filter (fun p => p.Name == n) [p]) = [] := by simp [hp]
        rw [hb, List.append_nil, if_neg hp, ih]

/-- The link-relation switch never touches the extended-property map. -/
theorem applyLink_ExtendedProperty (c : ContactKind) (l : Link) :
    (applyLink c l).ExtendedProperty = c.ExtendedProperty := by
  unfold applyLink
  repeat' split
  all_goals rfl

/-- Neither does the whole link loop. -/
theorem foldl_applyLink_ExtendedProperty (ls : List Link) (c : ContactKind) :
    (ls.foldl applyLink c).ExtendedProperty = c.ExtendedProperty := by
  induction ls generalizing c with
  | nil => rfl
  | cons l rest ih => rw [List.foldl_cons, ih, applyLink_ExtendedProperty]

/-- `any` over an `,attr,omitempty` string attribute. -/
theorem any_optAttr (p : XAttr → Bool) (n v : String) :
    (optAttr n v).any p = (!(v == "") && p ⟨n, v⟩) := by
  unfold optAttr; split <;> simp_all

/-- `any` over an `,attr,omitempty` bool attribute. -/
theorem any_optBoolAttr (p : XAttr → Bool) (n : String) (b : Bool) :
    (optBoolAttr n b).any p = (b && p ⟨n, "true"⟩) := by
  unfold optBoolAttr; cases b <;> simp

/-- `any` over an `,omitempty` child element. -/
theorem any_optElem (p : Xml → Bool) (n v : String) :
    (optElem n v).any p = (!(v == "") && p (.mk gdNS n [] [] v)) := by
  unfold optElem; split <;> simp_all

/-- `any` with an everywhere-false predicate. -/
theorem any_const_false {α : Type} (l : List α) : (l.any fun _ => false) = false := by
  induction l <;> simp_all

/-- Trimming the empty string. -/
theorem goTrimSpace_empty : goTrimSpace "" = "" := rfl

/-! ### Claim theorems -/

/-- C1 (code bug): the round-trip claim fails on the code.  Decoding the
encoding of a postal address whose `rel` attribute is set yields the
address with `Related` emptied, because
`GDStructuredPostalAddress.UnmarshalXML` assigns the decoded `rel` into
`Region` (immediately overwritten) and never assigns `Related`; so
`decode(encode(x))` does not reproduce all caller-settable fields of
`x`. -/
theorem C1_address_roundtrip_drops_rel :
    GDStructuredPostalAddress.unmarshal (GDStructuredPostalAddress.marshal c1Addr) =
      .ok { c1Addr with Related := "" } ∧ c1Addr.Related ≠ "" := by
  decide

/-- C2 (code bug): on a one-page chain whose page holds one contact with
one email, `ListContacts` terminates with the page's version tag and
updated timestamp as the `QueryStatus`, but the returned list is not the
page's contacts: each returned contact is produced by `Clone`, which
prepends a zero-valued entry per email (and per phone number and postal
address), so the concatenation claim fails on the code. -/
theorem C2_list_returns_corrupted_clones :
    c2Svc.ListContacts (fun _ => c2Feed) 4 "full" "" [] =
      some ([{ c2Contact with Email := [GDEmail.zero, c2Email] }], ⟨"U1", "E1"⟩) ∧
    ({ c2Contact with Email := [GDEmail.zero, c2Email] } : ContactKind) ≠ c2Contact := by
  decide

/-- C3: when the freshly fetched contact's version tag differs from the
caller's tag and the caller's tag is not the wildcard, `UpdateContact` and
`DeleteContact` fail with the version-mismatch error and every request they
issued was a GET — no PUT or DELETE is ever sent. -/
theorem C3_version_mismatch_blocks_mutation (s : Svc) (server : Request → Response)
    (id etag : String) (p ct ct' : ContactKind)
    (hu : (s.getContact server id "full" "").2 = .ok (some ct))
    (hd : (s.getContact server id "thin" "").2 = .ok (some ct'))
    (h1 : ct.etag ≠ etag) (h2 : ct'.etag ≠ etag) (hw : etag ≠ "*") :
    (s.UpdateContact server id etag p).2 = .error "UpdateContact error: etag not match" ∧
    (∀ r ∈ (s.UpdateContact server id etag p).1, r.method = "GET") ∧
    (s.DeleteContact server id etag).2 = .error "UpdateContact error: etag not match" ∧
    (∀ r ∈ (s.DeleteContact server id etag).1, r.method = "GET") := by
  have hgu : s.getContact server id "full" "" =
      ((s.getContact server id "full" "").1, Except.ok (some ct)) := by
    rw [← hu]
  have hgd : s.getContact server id "thin" "" =
      ((s.getContact server id "thin" "").1, Except.ok (some ct')) := by
    rw [← hd]
  have htr1 : (s.getContact server id "full" "").1 =
      [{ method := "GET", url := s.endpoint ++ "/" ++ s.getPojection "full" ++ "/" ++ id
         ifNoneMatch := none, ifMatch := none }] := by
    simp [Svc.getContact]
  have htr2 : (s.getContact server id "thin" "").1 =
      [{ method := "GET", url := s.endpoint ++ "/" ++ s.getPojection "thin" ++ "/" ++ id
         ifNoneMatch := none, ifMatch := none }] := by
    simp [Svc.getContact]
  refine ⟨?_, ?_, ?_, ?_⟩
  · unfold Svc.UpdateContact
    rw [hgu]
    dsimp only
    rw [if_pos ⟨h1, hw⟩]
  · unfold Svc.UpdateContact
    rw [hgu]
    dsimp only
    rw [if_pos ⟨h1, hw⟩]
    intro r hr
    rw [htr1] at hr
    simp at hr
    rw [hr]
  · unfold Svc.DeleteContact
    rw [hgd]
    dsimp only
    rw [if_pos ⟨h2, hw⟩]
  · unfold Svc.DeleteContact
    rw [hgd]
    dsimp only
    rw [if_pos ⟨h2, hw⟩]
    intro r hr
    rw [htr2] at hr
    simp at hr
    rw [hr]

/-- Witness for C3 at a concrete service, server and tags (`"B"` vs the
fetched `"A"`). -/
theorem C3_version_mismatch_blocks_mutation_witness :
    (c3Svc.UpdateContact c3Server "id1" "B" ContactKind.zero).2 =
      .error "UpdateContact error: etag not match" ∧
    (c3Svc.UpdateContact c3Server "id1" "B" ContactKind.zero).1.all
      (fun r => r.method == "GET") = true ∧
    (c3Svc.DeleteContact c3Server "id1" "B").2 =
      .error "UpdateContact error: etag not match" ∧
    (c3Svc.DeleteContact c3Server "id1" "B").1.all (fun r => r.method == "GET") = true := by
  have h := C3_version_mismatch_blocks_mutation c3Svc c3Server "id1" "B" ContactKind.zero
    c3Ct c3Ct (by decide) (by decide) (by decide) (by decide) (by decide)
  exact ⟨h.1, by decide, h.2.2.1, by decide⟩

/-- C4: `GetContact` issues exactly one GET whose `If-None-Match` header is
the supplied version tag when it is non-empty and not the wildcard, and
absent otherwise; and when the server answers HTTP 304 the result is
`Except.ok none` — the `(nil, nil)` sentinel, not an error. -/
theorem C4_conditional_get (s : Svc) (server : Request → Response)
    (id projection etag : String) :
    ∃ r : Request,
      (s.GetContact server id projection etag).1 = [r] ∧
      r.method = "GET" ∧
      r.ifNoneMatch = (if etag ≠ "" ∧ etag ≠ "*" then some etag else none) ∧
      ((server r).status = 304 → (s.GetContact server id projection etag).2 = .ok none) := by
  refine ⟨{ method := "GET", url := s.endpoint ++ "/" ++ s.getPojection projection ++ "/" ++ id
            ifNoneMatch := if etag ≠ "" ∧ etag ≠ "*" then some etag else none
            ifMatch := none }, rfl, rfl, rfl, ?_⟩
  intro h
  simp only [Svc.GetContact, Svc.getContact, h, if_pos]

/-- Witness for C4 against a server that always answers 304: the sentinel
comes back and the issued request carried the tag as `If-None-Match`. -/
theorem C4_conditional_get_witness :
    (c4Svc.GetContact c4Server "abc" "" "TAG").2 = .ok none ∧
    (c4Svc.GetContact c4Server "abc" "" "TAG").1.all
      (fun r => r.ifNoneMatch == some "TAG") = true := by
  obtain ⟨r, h1, hm, hh, h304⟩ := C4_conditional_get c4Svc c4Server "abc" "" "TAG"
  exact ⟨h304 rfl, by decide⟩

/-- C5 (code bug): `Clone` is not equal to the original.  `Email` and
`PhoneNumber` (and `StructuredPostalAddress`) come back with a zero-valued
entry prepended per original element (`make([]T, len(...))` followed by
`append`), while `IM` — built with `make([]T, 0, len(...))` — is copied
exactly. -/
theorem C5_clone_prepends_zero_entries :
    c5Contact.Clone.Email =
      [GDEmail.zero, ⟨"a@b.com", "http://schemas.google.com/g/2005#home", "", false, ""⟩] ∧
    c5Contact.Clone.PhoneNumber = [GDPhoneNumber.zero, ⟨"", "", "", false, "555"⟩] ∧
    c5Contact.Clone.IM = c5Contact.IM ∧
    c5Contact.Clone ≠ c5Contact := by
  decide

/-- C6 (code bug): on a decoded page whose link collection is empty the
inner link loop never runs, so the pending request is left unchanged and
`ListContacts` re-issues the same page GET forever instead of terminating
(first conjunct); when a `next` relation is present, the pending request
becomes a GET to that link's `href` verbatim, with no query parameters
re-applied (second conjunct). -/
theorem C6_empty_links_never_terminates :
    listLoopStuck (fun _ => c6Feed) c6Req ∧
    scanNext (some c6Req)
        [⟨"self", "", "https://feed/self"⟩, ⟨"next", "", "https://feed/page2?token=abc"⟩] =
      some ⟨"GET", "https://feed/page2?token=abc", none, none⟩ := by
  constructor
  · intro fuel
    induction fuel with
    | zero => intro ret st; rfl
    | succ n ih => intro ret st; simpa [listLoop, scanNext, c6Feed] using ih _ _
  · decide

/-- C7 counterexample: the free-text `content` field has no `omitempty`
tag, so encoding a contact whose content is the zero value still emits a
`content` child element — the claim's omit-if-empty does not hold for the
content field. -/
theorem C7_empty_content_still_emitted :
    ContactKind.zero.content = "" ∧
    hasChild (ContactKind.marshal ContactKind.zero) "content" = true := by
  decide

/-- C7 as amended: omit-if-empty holds for every optional leaf field — all
six name leaves, the `,omitempty` attributes of email, phone, address,
instant-message and extended-property elements, the address child elements,
and each repeated sequence of a contact — while the `content` element (and
the mandatory `address`/`name` attributes) are emitted even when empty. -/
theorem C7_omit_if_empty_optional_leaves :
    ∀ (n : GDName) (m : GDEmail) (p : GDPhoneNumber) (a : GDStructuredPostalAddress)
      (im : GDIM) (xp : GDExtendedProperty) (c : ContactKind),
      ((n.GivenName = "" → hasChild n.marshal "givenName" = false) ∧
       (n.AdditionalName = "" → hasChild n.marshal "additionalName" = false) ∧
       (n.FamilyName = "" → hasChild n.marshal "familyName" = false) ∧
       (n.Prefix = "" → hasChild n.marshal "namePrefix" = false) ∧
       (n.Suffix = "" → hasChild n.marshal "nameSuffix" = false) ∧
       (n.FullName = "" → hasChild n.marshal "fullName" = false)) ∧
      ((m.Related = "" → hasAttr m.marshal "rel" = false) ∧
       (m.Label = "" → hasAttr m.marshal "label" = false) ∧
       (m.Primary = false → hasAttr m.marshal "primary" = false) ∧
       (m.DisplayName = "" → hasAttr m.marshal "displayName" = false)) ∧
      ((p.Related = "" → hasAttr p.marshal "rel" = false) ∧
       (p.Label = "" → hasAttr p.marshal "label" = false) ∧
       (p.URI = "" → hasAttr p.marshal "uri" = false) ∧
       (p.Primary = false → hasAttr p.marshal "primary" = false)) ∧
      ((a.Related = "" → hasAttr a.marshal "rel" = false) ∧
       (a.MailClass = "" → hasAttr a.marshal "mailClass" = false) ∧
       (a.Usage = "" → hasAttr a.marshal "usage" = false) ∧
       (a.Label = "" → hasAttr a.marshal "label" = false) ∧
       (a.Primary = false → hasAttr a.marshal "primary" = false) ∧
       (a.Agent = "" → hasChild a.marshal "agent" = false) ∧
       (a.HouseName = "" → hasChild a.marshal "housename" = false) ∧
       (a.Pobox = "" → hasChild a.marshal "pobox" = false) ∧
       (a.Neighborhood = "" → hasChild a.marshal "neighborhood" = false) ∧
       (a.City = "" → hasChild a.marshal "city" = false) ∧
       (a.Street = "" → hasChild a.marshal "street" = false) ∧
       (a.Region = "" → hasChild a.marshal "region" = false) ∧
       (a.SubRegion = "" → hasChild a.marshal "subregion" = false) ∧
       (a.PostCode = "" → hasChild a.marshal "postcode" = false) ∧
       (a.Country = "" → hasChild a.marshal "country" = false) ∧
       (a.FormattedAddress = "" → hasChild a.marshal "formattedAddress" = false)) ∧
      ((im.Label = "" → hasAttr im.marshal "label" = false) ∧
       (im.Related = "" → hasAttr im.marshal "rel" = false) ∧
       (im.Protocol = "" → hasAttr im.marshal "protocol" = false) ∧
       (im.Primary = false → hasAttr im.marshal "primary" = false)) ∧
      ((xp.Value = "" → hasAttr xp.marshal "value" = false) ∧
       (xp.Realm = "" → hasAttr xp.marshal "realm" = false)) ∧
      ((c.Email = [] → hasChild c.marshal "email" = false) ∧
       (c.PhoneNumber = [] → hasChild c.marshal "phoneNumber" = false) ∧
       (c.StructuredPostalAddress = [] →
         hasChild c.marshal "structuredPostalAddress" = false) ∧
       (c.ExtendedProperty = [] → hasChild c.marshal "extendedProperty" = false) ∧
       (c.IM = [] → hasChild c.marshal "im" = false)) := by
  intro n m p a im xp c
  refine ⟨⟨?_, ?_, ?_, ?_, ?_, ?_⟩, ⟨?_, ?_, ?_, ?_⟩, ⟨?_, ?_, ?_, ?_⟩,
    ⟨?_, ?_, ?_, ?_, ?_, ?_, ?_, ?_, ?_, ?_, ?_, ?_, ?_, ?_, ?_, ?_⟩,
    ⟨?_, ?_, ?_, ?_⟩, ⟨?_, ?_⟩, ⟨?_, ?_, ?_, ?_, ?_⟩⟩
  · intro h
    simp [hasChild, GDName.marshal, any_optElem, h, goTrimSpace_empty]
  · intro h
    simp [hasChild, GDName.marshal, any_optElem, h, goTrimSpace_empty]
  · intro h
    simp [hasChild, GDName.marshal, any_optElem, h, goTrimSpace_empty]
  · intro h
    simp [hasChild, GDName.marshal, any_optElem, h, goTrimSpace_empty]
  · intro h
    simp [hasChild, GDName.marshal, any_optElem, h, goTrimSpace_empty]
  · intro h
    simp [hasChild, GDName.marshal, any_optElem, h, goTrimSpace_empty]
  · intro h
    simp [hasAttr, GDEmail.marshal, any_optAttr, any_optBoolAttr, h]
  · intro h
    simp [hasAttr, GDEmail.marshal, any_optAttr, any_optBoolAttr, h]
  · intro h
    simp [hasAttr, GDEmail.marshal, any_optAttr, any_optBoolAttr, h]
  · intro h
    simp [hasAttr, GDEmail.marshal, any_optAttr, any_optBoolAttr, h]
  · intro h
    simp [hasAttr, GDPhoneNumber.marshal, any_optAttr, any_optBoolAttr, h]
  · intro h
    simp [hasAttr, GDPhoneNumber.marshal, any_optAttr, any_optBoolAttr, h]
  · intro h
    simp [hasAttr, GDPhoneNumber.marshal, any_optAttr, any_optBoolAttr, h]
  · intro h
    simp [hasAttr, GDPhoneNumber.marshal, any_optAttr, any_optBoolAttr, h]
  · intro h
    simp [hasAttr, GDStructuredPostalAddress.marshal, any_optAttr, any_optBoolAttr, h]
  · intro h
    simp [hasAttr, GDStructuredPostalAddress.marshal, any_optAttr, any_optBoolAttr, h]
  · intro h
    simp [hasAttr, GDStructuredPostalAddress.marshal, any_optAttr, any_optBoolAttr, h]
  · intro h
    simp [hasAttr, GDStructuredPostalAddress.marshal, any_optAttr, any_optBoolAttr, h]
  · intro h
    simp [hasAttr, GDStructuredPostalAddress.marshal, any_optAttr, any_optBoolAttr, h]
  · intro h
    simp [hasChild, GDStructuredPostalAddress.marshal, any_optElem, h]
  · intro h
    simp [hasChild, GDStructuredPostalAddress.marshal, any_optElem, h]
  · intro h
    simp [hasChild, GDStructuredPostalAddress.marshal, any_optElem, h]
  · intro h
    simp [hasChild, GDStructuredPostalAddress.marshal, any_optElem, h]
  · intro h
    simp [hasChild, GDStructuredPostalAddress.marshal, any_optElem, h]
  · intro h
    simp [hasChild, GDStructuredPostalAddress.marshal, any_optElem, h]
  · intro h
    simp [hasChild, GDStructuredPostalAddress.marshal, any_optElem, h]
  · intro h
    simp [hasChild, GDStructuredPostalAddress.marshal, any_optElem, h]
  · intro h
    simp [hasChild, GDStructuredPostalAddress.marshal, any_optElem, h]
  · intro h
    simp [hasChild, GDStructuredPostalAddress.marshal, any_optElem, h]
  · intro h
    simp [hasChild, GDStructuredPostalAddress.marshal, any_optElem, h]
  · intro h
    simp [hasAttr, GDIM.marshal, any_optAttr, any_optBoolAttr, h]
  · intro h
    simp [hasAttr, GDIM.marshal, any_optAttr, any_optBoolAttr, h]
  · intro h
    simp [hasAttr, GDIM.marshal, any_optAttr, any_optBoolAttr, h]
  · intro h
    simp [hasAttr, GDIM.marshal, any_optAttr, any_optBoolAttr, h]
  · intro h
    simp [hasAttr, GDExtendedProperty.marshal, any_optAttr, h]
  · intro h
    simp [hasAttr, GDExtendedProperty.marshal, any_optAttr, h]
  · intro h
    simp [hasChild, ContactKind.marshal, h, List.any_map, Function.comp, GDName.marshal,
      GDEmail.marshal, GDPhoneNumber.marshal, GDStructuredPostalAddress.marshal,
      GDExtendedProperty.marshal, GDIM.marshal, any_const_false]
    intro x a' b hmem hx
    subst hx
    simp
  · intro h
    simp [hasChild, ContactKind.marshal, h, List.any_map, Function.comp, GDName.marshal,
      GDEmail.marshal, GDPhoneNumber.marshal, GDStructuredPostalAddress.marshal,
      GDExtendedProperty.marshal, GDIM.marshal, any_const_false]
    intro x a' b hmem hx
    subst hx
    simp
  · intro h
    simp [hasChild, ContactKind.marshal, h, List.any_map, Function.comp, GDName.marshal,
      GDEmail.marshal, GDPhoneNumber.marshal, GDStructuredPostalAddress.marshal,
      GDExtendedProperty.marshal, GDIM.marshal, any_const_false]
    intro x a' b hmem hx
    subst hx
    simp
  · intro h
    simp [hasChild, ContactKind.marshal, h, List.any_map, Function.comp, GDName.marshal,
      GDEmail.marshal, GDPhoneNumber.marshal, GDStructuredPostalAddress.marshal,
      GDExtendedProperty.marshal, GDIM.marshal, any_const_false]
  · intro h
    simp [hasChild, ContactKind.marshal, h, List.any_map, Function.comp, GDName.marshal,
      GDEmail.marshal, GDPhoneNumber.marshal, GDStructuredPostalAddress.marshal,
      GDExtendedProperty.marshal, GDIM.marshal, any_const_false]
    intro x a' b hmem hx
    subst hx
    simp

/-- C8: an entry whose category term differs from the fixed contact-kind
identifier (the empty term standing for an absent category) never decodes
successfully, and when the rest of the entry parses, the error is exactly
the type-mismatch message. -/
theorem C8_category_guard (x : Xml) (h : categoryTermOf x ≠ contactTerm) :
    (∀ c, ContactKind.unmarshal x ≠ .ok c) ∧
    (∀ o, decodeContactKindRaw x = .ok o →
      ContactKind.unmarshal x =
        .error ("xml type not match: expect " ++ contactTerm ++ ", got " ++ categoryTermOf x)) := by
  constructor
  · intro c hc
    unfold ContactKind.unmarshal at hc
    split at hc
    · simp at hc
    · rename_i o hraw
      have ht := (decodeContactKindRaw_ok_fields x o hraw).1
      rw [ht, if_pos h] at hc
      simp at hc
  · intro o ho
    unfold ContactKind.unmarshal
    split
    · rename_i e heq
      rw [ho] at heq
      simp at heq
    · rename_i o' hraw'
      rw [ho] at hraw'
      injection hraw' with hoo
      subst hoo
      have ht := (decodeContactKindRaw_ok_fields x o ho).1
      rw [ht, if_pos h]

/-- Witness for C8 at a concrete entry of a different kind (the group
term). -/
theorem C8_category_guard_witness :
    ContactKind.unmarshal c8Entry =
      .error ("xml type not match: expect " ++ contactTerm ++ ", got " ++ categoryTermOf c8Entry) :=
  (C8_category_guard c8Entry (by decide)).2 c8Raw (by decide)

/-- C9: the decoded extended-property mapping answers every name with the
value of the last wire pair carrying that name — duplicate names overwrite
earlier ones, and names never on the wire are absent — and every
successfully decoded contact's mapping is exactly this collapse of the
entry's `gd:extendedProperty` children. -/
theorem C9_extended_property_last_wins :
    (∀ (ps : List GDExtendedProperty) (n : String),
      GoMap.lookup (buildExtendedProperty ps) n =
        (match (ps.filter (fun p => p.Name == n)).getLast? with
          | some p => some p.Value
          | none => none)) ∧
    (∀ (x : Xml) (c : ContactKind), ContactKind.unmarshal x = .ok c →
      c.ExtendedProperty = buildExtendedProperty (extendedPropsOf x)) := by
  constructor
  · intro ps n
    rw [buildExtendedProperty, buildExtendedProperty_lookup_aux]
    cases h : (ps.filter (fun p => p.Name == n)).getLast? <;> simp [GoMap.lookup]
  · intro x c hc
    unfold ContactKind.unmarshal at hc
    split at hc
    · simp at hc
    · rename_i o hraw
      split at hc
      · simp at hc
      · injection hc with h'
        subst h'
        rw [foldl_applyLink_ExtendedProperty]
        show buildExtendedProperty o.ExtendedProperty = buildExtendedProperty (extendedPropsOf x)
        rw [(decodeContactKindRaw_ok_fields x o hraw).2]

/-- C10 (code bug): the free-text query builder drops every non-negated
term.  A lone positive term produces the empty query; the documentation's
own example produces only the negated term, preceded by one separator
space per skipped term.  Only the negation rendering (`-"term"`) of the
claim holds. -/
theorem C10_text_query_drops_positive_terms :
    textQueryString ["Darcy"] = "" ∧
    textQueryString ["\"Elizabeth Bennet\"", "Darcy", "-Austen"] = "  -\"Austen\"" ∧
    WithTextQuery ["Darcy"] ([] : Values) = [("q", "")] := by
  decide
